import Mathlib

/-!
Verification development for the Travel-Planner backend
(`backend/server.py`).  The service logic is embedded shallowly:

* strings handled by the response parser are `List Char`;
* the Mongo collections become Lean lists inside a `DB` record, with
  `find_one` modelled as `List.find?` (first match) and `insert_one` as
  appending to the list;
* external collaborators (bcrypt via passlib, PyJWT, the LLM chat call,
  `json.loads`, FastAPI's `HTTPBearer`) are modelled by executable Lean
  functions or oracle parameters that follow their documented behaviour;
* route handlers become pure functions `DB → input → Except HTTPError out`
  (paired with the updated `DB` when they write).
-/

/-- The ASCII whitespace set of Python's `str.strip()` (the rare
further Unicode space characters are not modelled): space, tab, line
feed, carriage return, vertical tab, form feed. -/
def pyWsChars : List Char := [' ', '\t', '\n', '\r', Char.ofNat 11, Char.ofNat 12]

/-- Membership test for `str.strip()` whitespace. -/
def isPyWs (c : Char) : Bool := pyWsChars.contains c

/-- JSON insignificant whitespace (RFC 8259), used between tokens
inside a document: space, tab, line feed, carriage return. -/
def jsonWsChars : List Char := [' ', '\t', '\n', '\r']

/-- Membership test for JSON whitespace. -/
def isJsonWs (c : Char) : Bool := jsonWsChars.contains c

/-- Model of Python `str.strip()`: remove leading and trailing
whitespace. -/
def pyStrip (l : List Char) : List Char :=
  (l.dropWhile isPyWs).rdropWhile isPyWs

/-- Whitespace skipping between JSON tokens. -/
def skipWs (l : List Char) : List Char := l.dropWhile isJsonWs

/-- The backtick character (written via its code point). -/
def btChar : Char := Char.ofNat 96

/-- The `\x60\x60\x60` fence marker checked by the fallback parser
(source line 275). -/
def codeFence : List Char := [btChar, btChar, btChar]

/-- The `\x60\x60\x60json` fence marker checked first by the fallback
parser (source line 273). -/
def codeFenceJson : List Char := [btChar, btChar, btChar, 'j', 's', 'o', 'n']

/-- Parsed JSON documents, as produced by `json.loads`.  Numbers keep
their source lexeme (the claims never depend on numeric value), strings
hold their decoded characters, objects are association lists in document
order. -/
inductive Json where
  | null : Json
  | bool (b : Bool) : Json
  | num (lexeme : List Char) : Json
  | str (chars : List Char) : Json
  | arr (elems : List Json) : Json
  | obj (members : List (List Char × Json)) : Json

/-- Value of a hexadecimal digit, if any, computed on code points. -/
def hexVal (c : Char) : Option Nat :=
  let n := c.toNat
  if 48 ≤ n && n ≤ 57 then some (n - 48)
  else if 97 ≤ n && n ≤ 102 then some (n - 87)
  else if 65 ≤ n && n ≤ 70 then some (n - 55)
  else none

/-- Table of the single-character JSON escapes and their decodings. -/
def escTable : List (Char × Char) :=
  [('"', '"'), ('\\', '\\'), ('/', '/'), ('b', Char.ofNat 8),
   ('f', Char.ofNat 12), ('n', '\n'), ('r', '\r'), ('t', '\t')]

/-- Decoding of a single-character JSON escape, by table lookup. -/
def escChar (c : Char) : Option Char :=
  (escTable.find? (fun p => p.1 == c)).map (fun p => p.2)

/-- Lexer for the body of a JSON string literal, positioned just after
the opening quote.  Returns the decoded characters and the input after
the closing quote.  Raw control characters are rejected as in strict
`json.loads`; `\uXXXX` escapes decode to the corresponding code point
(surrogate-pair recombination is not modelled). -/
def lexStr : Nat → List Char → Option (List Char × List Char)
  | 0, _ => none
  | _ + 1, [] => none
  | fuel + 1, c :: r =>
    if c == '"' then some ([], r)
    else if c == '\\' then
      match r with
      | [] => none
      | 'u' :: h1 :: h2 :: h3 :: h4 :: r2 =>
        match hexVal h1, hexVal h2, hexVal h3, hexVal h4 with
        | some a, some b, some c2, some d =>
          (lexStr fuel r2).map
            (fun p => (Char.ofNat (((a * 16 + b) * 16 + c2) * 16 + d) :: p.1, p.2))
        | _, _, _, _ => none
      | e :: r2 =>
        match escChar e with
        | some d => (lexStr fuel r2).map (fun p => (d :: p.1, p.2))
        | none => none
    else if c.toNat < 32 then none
    else (lexStr fuel r).map (fun p => (c :: p.1, p.2))

/-- Non-digit characters that can occur in a JSON number lexeme. -/
def numPunct : List Char := ['-', '+', '.', 'e', 'E']

/-- Characters that can occur in a JSON number lexeme. -/
def numChar (c : Char) : Bool := c.isDigit || numPunct.contains c

/-- Nonempty all-digit check. -/
def allDigits1 (l : List Char) : Bool :=
  !l.isEmpty && l.all Char.isDigit

/-- Check of the optional exponent part of a JSON number. -/
def chkExpPart : List Char → Bool
  | [] => true
  | c :: r =>
    if c == 'e' || c == 'E' then
      match r with
      | '+' :: r2 => allDigits1 r2
      | '-' :: r2 => allDigits1 r2
      | _ => allDigits1 r
    else false

/-- Check of the optional fraction (then exponent) part of a JSON
number. -/
def chkFracPart : List Char → Bool
  | [] => true
  | c :: r =>
    if c == '.' then
      allDigits1 (r.takeWhile Char.isDigit) && chkExpPart (r.dropWhile Char.isDigit)
    else chkExpPart (c :: r)

/-- Whole-lexeme check against the RFC 8259 number grammar
(`-?int frac? exp?`, no leading zeros). -/
def checkNumber (l : List Char) : Bool :=
  match (match l with | '-' :: r => r | _ => l) with
  | [] => false
  | '0' :: r => chkFracPart r
  | c :: r => c.isDigit && chkFracPart (r.dropWhile Char.isDigit)

/-- Lexeme of the literal `null`. -/
def nullLit : List Char := ['n', 'u', 'l', 'l']

/-- Lexeme of the literal `true`. -/
def trueLit : List Char := ['t', 'r', 'u', 'e']

/-- Lexeme of the literal `false`. -/
def falseLit : List Char := ['f', 'a', 'l', 's', 'e']

mutual

/-- Recursive-descent parser for one JSON value.  The fuel argument
models Python's recursion limit; `json_loads` supplies enough fuel for
any document it is given.  A number lexeme is taken as the maximal run
of number characters and then validated, which rejects and accepts the
same documents as the scanner of `json.loads`. -/
def parseValue : Nat → List Char → Option (Json × List Char)
  | 0, _ => none
  | _ + 1, [] => none
  | fuel + 1, c :: r =>
    if c == '{' then
      match skipWs r with
      | '}' :: r2 => some (.obj [], r2)
      | r1 => (parseMembers fuel r1).map (fun p => (.obj p.1, p.2))
    else if c == '[' then
      match skipWs r with
      | ']' :: r2 => some (.arr [], r2)
      | r1 => (parseElems fuel r1).map (fun p => (.arr p.1, p.2))
    else if c == '"' then
      (lexStr fuel r).map (fun p => (.str p.1, p.2))
    else if nullLit.isPrefixOf (c :: r) then some (.null, (c :: r).drop 4)
    else if trueLit.isPrefixOf (c :: r) then some (.bool true, (c :: r).drop 4)
    else if falseLit.isPrefixOf (c :: r) then some (.bool false, (c :: r).drop 5)
    else if c == '-' || c.isDigit then
      let lex := (c :: r).takeWhile numChar
      if checkNumber lex then some (.num lex, (c :: r).dropWhile numChar) else none
    else none

/-- Parser for the members of a JSON object, positioned at the (already
whitespace-skipped) first member.  Consumes through the closing
brace. -/
def parseMembers : Nat → List Char → Option (List (List Char × Json) × List Char)
  | 0, _ => none
  | fuel + 1, l =>
    match l with
    | '"' :: r =>
      match lexStr fuel r with
      | none => none
      | some (k, r2) =>
        match skipWs r2 with
        | ':' :: r3 =>
          match parseValue fuel (skipWs r3) with
          | none => none
          | some (v, r4) =>
            match skipWs r4 with
            | ',' :: r5 => (parseMembers fuel (skipWs r5)).map (fun p => ((k, v) :: p.1, p.2))
            | '}' :: r5 => some ([(k, v)], r5)
            | _ => none
        | _ => none
    | _ => none

/-- Parser for the elements of a JSON array, positioned at the (already
whitespace-skipped) first element.  Consumes through the closing
bracket. -/
def parseElems : Nat → List Char → Option (List Json × List Char)
  | 0, _ => none
  | fuel + 1, l =>
    match parseValue fuel l with
    | none => none
    | some (v, r) =>
      match skipWs r with
      | ',' :: r2 => (parseElems fuel (skipWs r2)).map (fun p => (v :: p.1, p.2))
      | ']' :: r2 => some ([v], r2)
      | _ => none

end

/-- Parse of a whole document with no surrounding whitespace: the value
must consume the entire input. -/
def jsonParseExact (t : List Char) : Option Json :=
  match parseValue (t.length + 1) t with
  | some (v, []) => some v
  | _ => none

/-- Model of Python `json.loads`: a JSON document surrounded by
insignificant whitespace.  The surrounding whitespace is removed up
front with the same character set as `str.strip`, then the document must
parse exactly. -/
def json_loads (s : List Char) : Option Json :=
  jsonParseExact (pyStrip s)

/-- Two-stage response parser of `generate_itinerary` (source lines
269-279): try `json.loads` on the raw response; on a decode error,
`strip()` the response, cut a leading `\x60\x60\x60json` (7 characters) and then a
leading `\x60\x60\x60` (3 characters) if present, cut a trailing `\x60\x60\x60` if
present, and retry `json.loads` on the stripped remainder. -/
def parse_llm_response (response : List Char) : Option Json :=
  match json_loads response with
  | some v => some v
  | none =>
    let c0 := pyStrip response
    let c1 := if codeFenceJson.isPrefixOf c0 then c0.drop 7 else c0
    let c2 := if codeFence.isPrefixOf c1 then c1.drop 3 else c1
    let c3 := if codeFence.isSuffixOf c2 then c2.take (c2.length - 3) else c2
    json_loads (pyStrip c3)

/-- A document wrapped in code-fence markers: a leading line of three
backticks (with the `json` tag when `withTag` is set) and a trailing
line of three backticks. -/
def wrapFenced (withTag : Bool) (s : List Char) : List Char :=
  (if withTag then codeFenceJson else codeFence) ++ '\n' :: (s ++ '\n' :: codeFence)

/-- An HTTP failure as raised through FastAPI's `HTTPException`. -/
structure HTTPError where
  status : Nat
  detail : String
deriving DecidableEq, Repr

/-- A stored user document (`User` model, source lines 36-42). -/
structure UserRec where
  id : String
  email : String
  name : String
  password_hash : String
  created_at : String
deriving DecidableEq, Repr

/-- A stored trip-criteria document (`TripCriteria` model, source lines
53-68).  The four enumerated fields are strings validated against their
literal sets; `number_of_days` is annotated plain `int` in the source
(line 63), so it carries no further constraint. -/
structure TripRec where
  id : String
  user_id : String
  location : String
  time_of_arrival : String
  time_of_departure : String
  location_of_stay : String
  check_in_datetime : String
  check_out_datetime : String
  number_of_days : Int
  trip_type : String
  trip_vibe : String
  hectic_level : String
  places_preference : String
  created_at : String
deriving DecidableEq, Repr

/-- A stored itinerary document (`Itinerary` model, source lines
83-89). -/
structure ItinRec where
  id : String
  trip_id : String
  user_id : String
  itinerary_data : Json
  created_at : String

/-- The document store: the `users`, `trips` and `itineraries`
collections.  `find_one` on an exact-match filter is modelled as
`List.find?`, `insert_one` as appending. -/
structure DB where
  users : List UserRec
  trips : List TripRec
  itineraries : List ItinRec

/-- Claims carried by a token issued by this service (`payload`, source
lines 102-106): user id, email and an absolute expiration timestamp in
seconds. -/
structure JwtClaims where
  user_id : String
  email : String
  exp : Int
deriving DecidableEq, Repr

/-- A wire token: either a string PyJWT cannot decode at all, or a
payload signed with some secret. -/
inductive JwtToken where
  | malformed (raw : String) : JwtToken
  | signed (claims : JwtClaims) (secret : String) : JwtToken
deriving DecidableEq, Repr

/-- Failures of PyJWT's `jwt.decode`. -/
inductive JwtError where
  | expiredSignature : JwtError
  | invalidToken : JwtError
deriving DecidableEq, Repr

/-- Default signing secret (source line 29). -/
def JWT_SECRET : String := "travel_planner_secret_key"

/-- Default token lifetime in hours (source line 31). -/
def JWT_EXPIRATION_HOURS : Int := 720

/-- Model of `jwt.decode` with signature verification: a malformed
token or a wrong signature raises `InvalidTokenError`; an expiration
timestamp not in the future raises `ExpiredSignatureError`; otherwise
the payload is returned. -/
def jwt_decode (tok : JwtToken) (secret : String) (now : Int) : Except JwtError JwtClaims :=
  match tok with
  | .malformed _ => .error .invalidToken
  | .signed claims s =>
    if s = secret then
      if claims.exp ≤ now then .error .expiredSignature else .ok claims
    else .error .invalidToken

/-- `create_jwt_token` (source lines 101-107): sign a payload carrying
the user id, the email, and `now + JWT_EXPIRATION_HOURS` as an absolute
expiration (hours are converted to seconds).  `now` models
`datetime.now(timezone.utc)`. -/
def create_jwt_token (user_id email : String) (now : Int) : JwtToken :=
  .signed { user_id := user_id, email := email,
            exp := now + JWT_EXPIRATION_HOURS * 3600 } JWT_SECRET

/-- `decode_jwt_token` (source lines 109-116): decode and convert the
two PyJWT failures to 401 responses. -/
def decode_jwt_token (tok : JwtToken) (now : Int) : Except HTTPError JwtClaims :=
  match jwt_decode tok JWT_SECRET now with
  | .ok claims => .ok claims
  | .error .expiredSignature => .error ⟨401, "Token has expired"⟩
  | .error .invalidToken => .error ⟨401, "Invalid token"⟩

/-- The Authorization header of a request: absent, present but not of
the `scheme credentials` shape, or a scheme with a credential token. -/
inductive AuthHeader where
  | missing : AuthHeader
  | malformedHeader : AuthHeader
  | presented (scheme : String) (credentials : JwtToken) : AuthHeader
deriving Repr

/-- ASCII lowering of one character. -/
def lowerChar (c : Char) : Char :=
  if 'A' ≤ c && c ≤ 'Z' then Char.ofNat (c.toNat + 32) else c

/-- ASCII `str.lower()` as applied by the framework to the
Authorization scheme. -/
def strLower (s : String) : String := String.mk (s.data.map lowerChar)

/-- Model of `fastapi.security.HTTPBearer` with its default
`auto_error=True` (source line 33): a missing or shapeless Authorization
header raises 403 "Not authenticated", a scheme other than bearer
raises 403 "Invalid authentication credentials", otherwise the
credential part is handed to the route dependency. -/
def http_bearer (h : AuthHeader) : Except HTTPError JwtToken :=
  match h with
  | .missing => .error ⟨403, "Not authenticated"⟩
  | .malformedHeader => .error ⟨403, "Not authenticated"⟩
  | .presented scheme tok =>
    if strLower scheme = "bearer" then .ok tok
    else .error ⟨403, "Invalid authentication credentials"⟩

/-- `get_current_user` (source lines 118-124) behind `HTTPBearer`:
extract the bearer credentials, decode them, and resolve the embedded
user id against the users collection; an unknown id raises 401 "User
not found".  Every protected route runs exactly this dependency. -/
def get_current_user (db : DB) (h : AuthHeader) (now : Int) : Except HTTPError UserRec :=
  match http_bearer h with
  | .error e => .error e
  | .ok tok =>
    match decode_jwt_token tok now with
    | .error e => .error e
    | .ok payload =>
      match db.users.find? (fun u => u.id == payload.user_id) with
      | none => .error ⟨401, "User not found"⟩
      | some u => .ok u

/-- Request body of `/auth/register`. -/
structure UserRegister where
  email : String
  name : String
  password : String
deriving DecidableEq, Repr

/-- Request body of `/auth/login`. -/
structure UserLogin where
  email : String
  password : String
deriving DecidableEq, Repr

/-- Successful auth response: the token and the public user view
`id, email, name`. -/
structure TokenResponse where
  token : JwtToken
  user_id : String
  user_email : String
  user_name : String
deriving DecidableEq, Repr

/-- `register` (source lines 126-156): reject when some stored user
already has the given email (exact string match, as in the Mongo
filter), otherwise insert a new user and issue a token.  `newId` models
the generated `uuid4`, `pwHash` the salted bcrypt hash produced by
`hash_password` (an external, nondeterministic collaborator), `now` the
clock for token expiry and `nowIso` its ISO rendering stored in the
document. -/
def register (db : DB) (input : UserRegister) (newId pwHash : String)
    (now : Int) (nowIso : String) : Except HTTPError TokenResponse × DB :=
  match db.users.find? (fun u => u.email == input.email) with
  | some _ => (.error ⟨400, "Email already registered"⟩, db)
  | none =>
    let user : UserRec :=
      { id := newId, email := input.email, name := input.name,
        password_hash := pwHash, created_at := nowIso }
    (.ok { token := create_jwt_token newId input.email now,
           user_id := newId, user_email := input.email, user_name := input.name },
     { db with users := db.users ++ [user] })

/-- `login` (source lines 158-179): look the user up by email, verify
the password against the stored hash (`verify` models passlib's
`verify_password`), and answer 401 "Invalid email or password" when
either step fails. -/
def login (db : DB) (cred : UserLogin) (verify : String → String → Bool)
    (now : Int) : Except HTTPError TokenResponse :=
  match db.users.find? (fun u => u.email == cred.email) with
  | none => .error ⟨401, "Invalid email or password"⟩
  | some u =>
    if verify cred.password u.password_hash then
      .ok { token := create_jwt_token u.id u.email now,
            user_id := u.id, user_email := u.email, user_name := u.name }
    else .error ⟨401, "Invalid email or password"⟩

/-- Request body of `POST /trips` (`TripCriteriaCreate`, source lines
70-81).  The four enumerated fields arrive as strings to be validated;
`number_of_days` is Pydantic `int`. -/
structure TripCriteriaCreate where
  location : String
  time_of_arrival : String
  time_of_departure : String
  location_of_stay : String
  check_in_datetime : String
  check_out_datetime : String
  number_of_days : Int
  trip_type : String
  trip_vibe : String
  hectic_level : String
  places_preference : String
deriving DecidableEq, Repr

/-- Literal set of `trip_type` (source line 78). -/
def tripTypes : List String := ["friends", "family", "solo", "couple"]

/-- Literal set of `trip_vibe` (source line 79). -/
def tripVibes : List String := ["relaxing", "adventurous", "party", "cultural", "nature", "mix"]

/-- Literal set of `hectic_level` (source line 80). -/
def hecticLevels : List String :=
  ["very_relaxed", "moderately_relaxed", "moderate", "medium_to_high", "very_hectic"]

/-- Literal set of `places_preference` (source line 81). -/
def placesPreferences : List String := ["mainstream", "hidden_gems", "balanced"]

/-- Pydantic validation of a `TripCriteriaCreate` body: each `Literal`
field must lie in its set.  `number_of_days` is only required to be an
integer, which the field's type already expresses; the source imposes no
positivity bound. -/
def validTripCreate (b : TripCriteriaCreate) : Bool :=
  tripTypes.contains b.trip_type && tripVibes.contains b.trip_vibe &&
  hecticLevels.contains b.hectic_level && placesPreferences.contains b.places_preference

/-- Detail of FastAPI's automatic 422 response on a body failing
validation (the structured per-field report is abbreviated to its
standard phrase). -/
def validationErrorDetail : String := "Unprocessable Entity"

/-- `create_trip` (source lines 189-198) together with the framework's
body validation: an invalid body never reaches the handler and yields
422; otherwise a `TripCriteria` document is built from the body with
`user_id := current_user['id']` and inserted. -/
def create_trip (db : DB) (body : TripCriteriaCreate) (user : UserRec)
    (newId nowIso : String) : Except HTTPError TripRec × DB :=
  if validTripCreate body then
    let trip : TripRec :=
      { id := newId, user_id := user.id, location := body.location,
        time_of_arrival := body.time_of_arrival,
        time_of_departure := body.time_of_departure,
        location_of_stay := body.location_of_stay,
        check_in_datetime := body.check_in_datetime,
        check_out_datetime := body.check_out_datetime,
        number_of_days := body.number_of_days,
        trip_type := body.trip_type, trip_vibe := body.trip_vibe,
        hectic_level := body.hectic_level,
        places_preference := body.places_preference, created_at := nowIso }
    (.ok trip, { db with trips := db.trips ++ [trip] })
  else (.error ⟨422, validationErrorDetail⟩, db)

/-- `get_trips` (source lines 200-206): the caller's trips, capped by
`to_list(100)` to the first 100 matching documents. -/
def get_trips (db : DB) (user : UserRec) : List TripRec :=
  (db.trips.filter (fun t => t.user_id == user.id)).take 100

/-- Prefix attached by the generation handler to the message of any
exception it catches (source line 300). -/
def genFailDetail (msg : String) : String := "Failed to generate itinerary: " ++ msg

/-- Message of the `json.JSONDecodeError` escaping the retry parse (the
concrete text varies with the input; it is kept abstract as one
representative string). -/
def jsonDecodeErrMsg : String := "Expecting value"

/-- Message of the Pydantic `ValidationError` raised when the parsed
response is not a JSON object, since `Itinerary.itinerary_data` is
declared `dict` (source line 88). -/
def pydanticDictErrMsg : String := "itinerary_data: input should be a valid dictionary"

/-- Response of a successful generation (source lines 292-296). -/
structure GenResponse where
  id : String
  trip_id : String
  itinerary : Json

/-- `generate_itinerary` (source lines 208-300): find the trip by id
and owner (404 if absent), call the external chat collaborator — the
parameter `llm` carries that call's outcome, an exception message or the
response text — parse the response with the two-stage parser, build the
`Itinerary` document (whose `itinerary_data` field requires a JSON
object) and insert it.  Any exception inside the `try` block, including
both decode failures and the model-validation failure, is caught and
converted to a 500 with the message appended. -/
def generate_itinerary (db : DB) (user : UserRec) (trip_id : String)
    (llm : Except String (List Char)) (newId nowIso : String) :
    Except HTTPError GenResponse × DB :=
  match db.trips.find? (fun t => t.id == trip_id && t.user_id == user.id) with
  | none => (.error ⟨404, "Trip not found"⟩, db)
  | some _trip =>
    match llm with
    | .error msg => (.error ⟨500, genFailDetail msg⟩, db)
    | .ok response =>
      match parse_llm_response response with
      | none => (.error ⟨500, genFailDetail jsonDecodeErrMsg⟩, db)
      | some data =>
        match data with
        | .obj members =>
          let itin : ItinRec :=
            { id := newId, trip_id := trip_id, user_id := user.id,
              itinerary_data := .obj members, created_at := nowIso }
          (.ok { id := newId, trip_id := trip_id, itinerary := .obj members },
           { db with itineraries := db.itineraries ++ [itin] })
        | _ => (.error ⟨500, genFailDetail pydanticDictErrMsg⟩, db)

/-- `get_itinerary` (source lines 302-310): first itinerary matching
the trip id and the caller, 404 when none exists. -/
def get_itinerary (db : DB) (user : UserRec) (trip_id : String) :
    Except HTTPError ItinRec :=
  match db.itineraries.find? (fun i => i.trip_id == trip_id && i.user_id == user.id) with
  | none => .error ⟨404, "Itinerary not found"⟩
  | some i => .ok i

/-- Email uniqueness of the users collection: no two stored users share
an email. -/
def emailsNodup (db : DB) : Prop := (db.users.map (fun u => u.email)).Nodup

theorem dropWhile_eq_cons_not {p : Char → Bool} {l : List Char} {a : Char} {t : List Char}
    (h : l.dropWhile p = a :: t) : p a = false := by
  induction l with
  | nil => simp at h
  | cons x xs ih =>
    by_cases hp : p x
    · rw [List.dropWhile_cons_of_pos hp] at h
      exact ih h
    · rw [List.dropWhile_cons_of_neg hp] at h
      cases h
      exact Bool.of_not_eq_true hp

theorem dropWhile_idem (p : Char → Bool) (l : List Char) :
    (l.dropWhile p).dropWhile p = l.dropWhile p := by
  cases h : l.dropWhile p with
  | nil => rfl
  | cons a t => rw [List.dropWhile_cons_of_neg]; simp [dropWhile_eq_cons_not h]

theorem rdropWhile_idem (p : Char → Bool) (l : List Char) :
    (l.rdropWhile p).rdropWhile p = l.rdropWhile p := by
  simp [List.rdropWhile, dropWhile_idem]

theorem pyStrip_idem (l : List Char) : pyStrip (pyStrip l) = pyStrip l := by
  unfold pyStrip
  have h1 : ((l.dropWhile isPyWs).rdropWhile isPyWs).dropWhile isPyWs
      = (l.dropWhile isPyWs).rdropWhile isPyWs := by
    cases h : (l.dropWhile isPyWs).rdropWhile isPyWs with
    | nil => rfl
    | cons a t =>
      rw [List.dropWhile_cons_of_neg]
      obtain ⟨w, hw⟩ := List.rdropWhile_prefix isPyWs (l.dropWhile isPyWs)
      rw [h] at hw
      have : l.dropWhile isPyWs = a :: (t ++ w) := by rw [← hw]; simp
      simp [dropWhile_eq_cons_not this]
  rw [h1, rdropWhile_idem]

theorem pyStrip_cons_ws {c : Char} (l : List Char) (h : isPyWs c = true) :
    pyStrip (c :: l) = pyStrip l := by
  simp [pyStrip, List.dropWhile_cons, h]

theorem pyStrip_append_ws {c : Char} (l : List Char) (h : isPyWs c = true) :
    pyStrip (l ++ [c]) = pyStrip l := by
  unfold pyStrip
  rw [List.dropWhile_append]
  cases hd : l.dropWhile isPyWs with
  | nil => simp [h]
  | cons a t =>
    simp only [List.isEmpty_cons, Bool.false_eq_true, if_false]
    rw [List.rdropWhile_concat_pos _ _ _ h]

theorem pyStrip_of_ends {a b : Char} (m : List Char)
    (ha : isPyWs a = false) (hb : isPyWs b = false) :
    pyStrip (a :: (m ++ [b])) = a :: (m ++ [b]) := by
  unfold pyStrip
  rw [List.dropWhile_cons_of_neg (by simp [ha])]
  rw [show a :: (m ++ [b]) = (a :: m) ++ [b] from rfl]
  rw [List.rdropWhile_concat_neg _ _ _ (by simp [hb])]

theorem json_loads_pyStrip (s : List Char) : json_loads (pyStrip s) = json_loads s := by
  simp [json_loads, pyStrip_idem]

theorem parseValue_btChar (fuel : Nat) (r : List Char) :
    parseValue fuel (btChar :: r) = none := by
  cases fuel with
  | zero => rfl
  | succ n =>
    have h1 : (btChar == '{') = false := by decide
    have h2 : (btChar == '[') = false := by decide
    have h3 : (btChar == '"') = false := by decide
    have h4 : ('n' == btChar) = false := by decide
    have h5 : ('t' == btChar) = false := by decide
    have h6 : ('f' == btChar) = false := by decide
    have h7 : (btChar == '-') = false := by decide
    have h8 : btChar.isDigit = false := by decide
    simp [parseValue, h1, h2, h3, h7, h8, nullLit, trueLit, falseLit,
          List.isPrefixOf_cons₂, h4, h5, h6]

theorem isPrefixOf_append_self (p r : List Char) : p.isPrefixOf (p ++ r) = true := by
  induction p with
  | nil => simp
  | cons a as ih => simp [List.isPrefixOf_cons₂, ih]

theorem isSuffixOf_append_self (p r : List Char) : p.isSuffixOf (r ++ p) = true := by
  simp [List.isSuffixOf, List.reverse_append, isPrefixOf_append_self]

theorem take_append_all (y z : List Char) :
    (y ++ z).take ((y ++ z).length - z.length) = y := by
  rw [List.length_append, Nat.add_sub_cancel]
  exact List.take_left y z

theorem json_loads_btChar_headed (m : List Char) :
    json_loads (btChar :: (m ++ [btChar])) = none := by
  unfold json_loads
  rw [pyStrip_of_ends _ (by decide) (by decide)]
  unfold jsonParseExact
  rw [parseValue_btChar]

theorem wrapFenced_true_shape (s : List Char) :
    wrapFenced true s = codeFenceJson ++ ('\n' :: (s ++ '\n' :: codeFence)) := by
  simp [wrapFenced]

theorem wrapFenced_false_shape (s : List Char) :
    wrapFenced false s = codeFence ++ ('\n' :: (s ++ '\n' :: codeFence)) := by
  simp [wrapFenced]

theorem json_loads_wrapFenced (wt : Bool) (s : List Char) :
    json_loads (wrapFenced wt s) = none := by
  cases wt
  · have hW : wrapFenced false s
        = btChar :: ((btChar :: btChar :: '\n' :: (s ++ ['\n', btChar, btChar])) ++ [btChar]) := by
      simp [wrapFenced, codeFence]
    rw [hW]; exact json_loads_btChar_headed _
  · have hW : wrapFenced true s
        = btChar :: ((btChar :: btChar :: 'j' :: 's' :: 'o' :: 'n' :: '\n'
            :: (s ++ ['\n', btChar, btChar])) ++ [btChar]) := by
      simp [wrapFenced, codeFenceJson, codeFence]
    rw [hW]; exact json_loads_btChar_headed _

theorem pyStrip_wrapFenced (wt : Bool) (s : List Char) :
    pyStrip (wrapFenced wt s) = wrapFenced wt s := by
  cases wt
  · have hW : wrapFenced false s
        = btChar :: ((btChar :: btChar :: '\n' :: (s ++ ['\n', btChar, btChar])) ++ [btChar]) := by
      simp [wrapFenced, codeFence]
    rw [hW]; exact pyStrip_of_ends _ (by decide) (by decide)
  · have hW : wrapFenced true s
        = btChar :: ((btChar :: btChar :: 'j' :: 's' :: 'o' :: 'n' :: '\n'
            :: (s ++ ['\n', btChar, btChar])) ++ [btChar]) := by
      simp [wrapFenced, codeFenceJson, codeFence]
    rw [hW]; exact pyStrip_of_ends _ (by decide) (by decide)

/-- Claim C2: for every string that parses as valid JSON, the two-stage
response parser yields the same parsed structure on the code-fenced
wrapping (with or without the `json` language tag) as on the document
itself, and the document itself parses directly through the strict first
stage. -/
theorem parse_llm_response_code_fence_invariant (s : List Char) (v : Json)
    (h : json_loads s = some v) :
    parse_llm_response (wrapFenced true s) = some v
    ∧ parse_llm_response (wrapFenced false s) = some v
    ∧ parse_llm_response s = some v := by
  have hnl : isPyWs '\n' = true := by decide
  have hX : ('\n' :: (s ++ '\n' :: codeFence))
      = ('\n' :: (s ++ ['\n'])) ++ codeFence := by simp [codeFence]
  have hc3 : json_loads (pyStrip ('\n' :: (s ++ ['\n']))) = some v := by
    rw [pyStrip_cons_ws _ hnl, pyStrip_append_ws _ hnl, json_loads_pyStrip, h]
  have hpre2 : codeFence.isPrefixOf ('\n' :: (s ++ '\n' :: codeFence)) = false := by
    simp [codeFence, List.isPrefixOf_cons₂, show (btChar == '\n') = false from by decide]
  have hsuf : codeFence.isSuffixOf ('\n' :: (s ++ '\n' :: codeFence)) = true := by
    rw [hX]; exact isSuffixOf_append_self _ _
  have h3 : codeFence.length = 3 := rfl
  have htake : ('\n' :: (s ++ '\n' :: codeFence)).take
      (('\n' :: (s ++ '\n' :: codeFence)).length - 3) = '\n' :: (s ++ ['\n']) := by
    rw [hX, ← h3]; exact take_append_all _ _
  refine ⟨?_, ?_, ?_⟩
  · have hpre1 : codeFenceJson.isPrefixOf (wrapFenced true s) = true := by
      rw [wrapFenced_true_shape]; exact isPrefixOf_append_self _ _
    have hdrop1 : (wrapFenced true s).drop 7 = '\n' :: (s ++ '\n' :: codeFence) := by
      rw [wrapFenced_true_shape]; exact List.drop_left' rfl
    rw [parse_llm_response, json_loads_wrapFenced]
    simp only [pyStrip_wrapFenced, hpre1, if_true, hdrop1, hpre2,
               Bool.false_eq_true, if_false, hsuf, htake]
    exact hc3
  · have hpre1 : codeFenceJson.isPrefixOf (wrapFenced false s) = false := by
      have hsh : wrapFenced false s
          = btChar :: btChar :: btChar :: '\n' :: (s ++ '\n' :: codeFence) := by
        simp [wrapFenced, codeFence]
      rw [hsh]
      simp [codeFenceJson, List.isPrefixOf_cons₂, show ('j' == '\n') = false from by decide]
    have hpre2f : codeFence.isPrefixOf (wrapFenced false s) = true := by
      rw [wrapFenced_false_shape]; exact isPrefixOf_append_self _ _
    have hdrop2 : (wrapFenced false s).drop 3 = '\n' :: (s ++ '\n' :: codeFence) := by
      rw [wrapFenced_false_shape]; exact List.drop_left' rfl
    rw [parse_llm_response, json_loads_wrapFenced]
    simp only [pyStrip_wrapFenced, hpre1, Bool.false_eq_true, if_false,
               hpre2f, if_true, hdrop2, hpre2, hsuf, htake]
    exact hc3
  · rw [parse_llm_response, h]

/-- Claim C1: for a trip owned by the caller, when the external
text-generation call raises, or its response fails to parse even after
the code-fence-stripping retry, `generate_itinerary` answers 500 with
the underlying message appended to the failure detail and leaves the
store — in particular the itineraries collection — unchanged. -/
theorem generate_itinerary_failure_no_persist
    (db : DB) (user : UserRec) (tid : String) (trip : TripRec)
    (llm : Except String (List Char)) (nid iso : String)
    (htrip : db.trips.find? (fun t => t.id == tid && t.user_id == user.id) = some trip)
    (hfail : (∃ msg, llm = .error msg) ∨ ∃ r, llm = .ok r ∧ parse_llm_response r = none) :
    (∃ msg, (generate_itinerary db user tid llm nid iso).1 = .error ⟨500, genFailDetail msg⟩)
    ∧ (generate_itinerary db user tid llm nid iso).2 = db := by
  rcases hfail with ⟨msg, rfl⟩ | ⟨r, rfl, hp⟩
  · exact ⟨⟨msg, by simp [generate_itinerary, htrip]⟩, by simp [generate_itinerary, htrip]⟩
  · exact ⟨⟨jsonDecodeErrMsg, by simp [generate_itinerary, htrip, hp]⟩,
      by simp [generate_itinerary, htrip, hp]⟩

theorem generate_itinerary_failure_no_persist_witness :
    (∃ msg, (generate_itinerary
        ⟨[], [⟨"t1", "u1", "P", "", "", "", "", "", 3, "solo", "mix", "moderate", "balanced", ""⟩], []⟩
        ⟨"u1", "a@x", "A", "h", ""⟩ "t1" (.error "boom") "i1" "now").1
      = .error ⟨500, genFailDetail msg⟩)
    ∧ (generate_itinerary
        ⟨[], [⟨"t1", "u1", "P", "", "", "", "", "", 3, "solo", "mix", "moderate", "balanced", ""⟩], []⟩
        ⟨"u1", "a@x", "A", "h", ""⟩ "t1" (.error "boom") "i1" "now").2
      = ⟨[], [⟨"t1", "u1", "P", "", "", "", "", "", 3, "solo", "mix", "moderate", "balanced", ""⟩], []⟩ :=
  generate_itinerary_failure_no_persist _ _ _
    ⟨"t1", "u1", "P", "", "", "", "", "", 3, "solo", "mix", "moderate", "balanced", ""⟩ _ _ _
    (by rfl) (Or.inl ⟨"boom", rfl⟩)

/-- Claim C3 (evaluating the code at the contested inputs): through the
protected-route dependency, an expired token, an undecodable token, a
wrongly-signed token, and a valid token whose user id matches no stored
user all produce the described 401 responses — but a request with no
Authorization header is rejected by `HTTPBearer` with 403 "Not
authenticated", not with the 401 that the specification (and the
repository's own `test_unauthorized_access`) expects. -/
theorem get_current_user_auth_failures :
    get_current_user ⟨[⟨"u3", "e@x", "N", "h", ""⟩], [], []⟩ .missing 0
      = .error ⟨403, "Not authenticated"⟩
    ∧ get_current_user ⟨[⟨"u3", "e@x", "N", "h", ""⟩], [], []⟩
        (.presented "bearer" (.signed ⟨"u3", "e@x", 10⟩ JWT_SECRET)) 20
      = .error ⟨401, "Token has expired"⟩
    ∧ get_current_user ⟨[⟨"u3", "e@x", "N", "h", ""⟩], [], []⟩
        (.presented "bearer" (.malformed "xyz")) 0
      = .error ⟨401, "Invalid token"⟩
    ∧ get_current_user ⟨[⟨"u3", "e@x", "N", "h", ""⟩], [], []⟩
        (.presented "bearer" (.signed ⟨"u3", "e@x", 100⟩ "wrong_secret")) 0
      = .error ⟨401, "Invalid token"⟩
    ∧ get_current_user ⟨[⟨"u3", "e@x", "N", "h", ""⟩], [], []⟩
        (.presented "bearer" (.signed ⟨"ghost", "e@x", 100⟩ JWT_SECRET)) 0
      = .error ⟨401, "User not found"⟩ := by
  have hb : strLower "bearer" = "bearer" := by decide
  refine ⟨rfl, ?_, ?_, ?_, ?_⟩ <;>
    simp [get_current_user, http_bearer, decode_jwt_token, jwt_decode, JWT_SECRET, hb]

/-- Claim C4: a token issued by `create_jwt_token` embeds the user's id
and email and an absolute expiration of issuance time plus
`JWT_EXPIRATION_HOURS` (720 by default) hours; decoding it strictly
before that timestamp recovers the same id and email, and decoding it
strictly after fails as expired. -/
theorem create_decode_jwt_round_trip (uid email : String) (tIssue t : Int) :
    create_jwt_token uid email tIssue
      = .signed ⟨uid, email, tIssue + JWT_EXPIRATION_HOURS * 3600⟩ JWT_SECRET
    ∧ (t < tIssue + JWT_EXPIRATION_HOURS * 3600 →
        decode_jwt_token (create_jwt_token uid email tIssue) t
          = .ok ⟨uid, email, tIssue + JWT_EXPIRATION_HOURS * 3600⟩)
    ∧ (tIssue + JWT_EXPIRATION_HOURS * 3600 < t →
        decode_jwt_token (create_jwt_token uid email tIssue) t
          = .error ⟨401, "Token has expired"⟩) := by
  refine ⟨rfl, ?_, ?_⟩
  · intro ht
    have hle : ¬ (tIssue + JWT_EXPIRATION_HOURS * 3600 ≤ t) := by omega
    simp [decode_jwt_token, jwt_decode, create_jwt_token, hle]
  · intro ht
    have hle : tIssue + JWT_EXPIRATION_HOURS * 3600 ≤ t := by omega
    simp [decode_jwt_token, jwt_decode, create_jwt_token, hle]

theorem create_decode_jwt_round_trip_witness :
    decode_jwt_token (create_jwt_token "u" "e" 0) 5
      = .ok ⟨"u", "e", 0 + JWT_EXPIRATION_HOURS * 3600⟩
    ∧ decode_jwt_token (create_jwt_token "u" "e" 0) 2592001
      = .error ⟨401, "Token has expired"⟩ :=
  ⟨(create_decode_jwt_round_trip "u" "e" 0 5).2.1 (by decide),
   (create_decode_jwt_round_trip "u" "e" 0 2592001).2.2 (by decide)⟩

/-- Claim C5: when some stored user already has the requested email
(exact, case-sensitive string match), `register` answers 400 "Email
already registered" and leaves the store unchanged; consequently two
registrations with the same email, whatever the names and passwords,
always fail with the duplicate error on the second attempt. -/
theorem register_duplicate_email_rejected
    (db : DB) (i1 i2 : UserRegister) (nid1 ph1 nid2 ph2 : String)
    (t1 t2 : Int) (iso1 iso2 : String) :
    ((∃ u ∈ db.users, u.email = i1.email) →
      register db i1 nid1 ph1 t1 iso1 = (.error ⟨400, "Email already registered"⟩, db))
    ∧ (i2.email = i1.email →
      (register (register db i1 nid1 ph1 t1 iso1).2 i2 nid2 ph2 t2 iso2).1
        = .error ⟨400, "Email already registered"⟩) := by
  constructor
  · rintro ⟨u, hu, he⟩
    cases hfind : db.users.find? (fun u => u.email == i1.email) with
    | none =>
      rw [List.find?_eq_none] at hfind
      exact ((hfind u hu) (by simp [he])).elim
    | some w => simp [register, hfind]
  · intro he
    cases hfind : db.users.find? (fun u => u.email == i1.email) with
    | some w => simp [register, hfind, he]
    | none => simp [register, hfind, he, List.find?_append]

theorem register_duplicate_email_rejected_witness :
    register ⟨[⟨"id0", "a@x", "A", "h", ""⟩], [], []⟩ ⟨"a@x", "B", "pw"⟩ "n1" "h1" 0 ""
      = (.error ⟨400, "Email already registered"⟩, ⟨[⟨"id0", "a@x", "A", "h", ""⟩], [], []⟩)
    ∧ (register (register ⟨[], [], []⟩ ⟨"a@x", "B", "pw"⟩ "n1" "h1" 0 "").2
        ⟨"a@x", "C", "pw2"⟩ "n2" "h2" 0 "").1 = .error ⟨400, "Email already registered"⟩ :=
  ⟨(register_duplicate_email_rejected ⟨[⟨"id0", "a@x", "A", "h", ""⟩], [], []⟩
      ⟨"a@x", "B", "pw"⟩ ⟨"a@x", "B", "pw"⟩ "n1" "h1" "n1" "h1" 0 0 "" "").1
      ⟨⟨"id0", "a@x", "A", "h", ""⟩, by simp, rfl⟩,
   (register_duplicate_email_rejected ⟨[], [], []⟩
      ⟨"a@x", "B", "pw"⟩ ⟨"a@x", "C", "pw2"⟩ "n1" "h1" "n2" "h2" 0 0 "" "").2 rfl⟩

theorem login_fail_eq (db : DB) (c : UserLogin) (verify : String → String → Bool) (t : Int)
    (h : db.users.find? (fun u => u.email == c.email) = none
       ∨ ∃ u, db.users.find? (fun u => u.email == c.email) = some u
           ∧ verify c.password u.password_hash = false) :
    login db c verify t = .error ⟨401, "Invalid email or password"⟩ := by
  rcases h with hn | ⟨u, hu, hv⟩
  · simp [login, hn]
  · simp [login, hu, hv]

/-- Claim C6: any two failing logins — unknown email, or known email
with a password the stored hash does not verify — produce literally the
same response, the 401 "Invalid email or password" error, so the two
failure causes are observationally indistinguishable. -/
theorem login_failures_indistinguishable
    (db1 db2 : DB) (c1 c2 : UserLogin) (v1 v2 : String → String → Bool) (t1 t2 : Int)
    (h1 : db1.users.find? (fun u => u.email == c1.email) = none
        ∨ ∃ u, db1.users.find? (fun u => u.email == c1.email) = some u
            ∧ v1 c1.password u.password_hash = false)
    (h2 : db2.users.find? (fun u => u.email == c2.email) = none
        ∨ ∃ u, db2.users.find? (fun u => u.email == c2.email) = some u
            ∧ v2 c2.password u.password_hash = false) :
    login db1 c1 v1 t1 = .error ⟨401, "Invalid email or password"⟩
    ∧ login db1 c1 v1 t1 = login db2 c2 v2 t2 := by
  have e1 := login_fail_eq db1 c1 v1 t1 h1
  have e2 := login_fail_eq db2 c2 v2 t2 h2
  exact ⟨e1, by rw [e1, e2]⟩

theorem login_failures_indistinguishable_witness :
    login ⟨[], [], []⟩ ⟨"a@x", "pw"⟩ (fun _ _ => false) 0
      = .error ⟨401, "Invalid email or password"⟩
    ∧ login ⟨[], [], []⟩ ⟨"a@x", "pw"⟩ (fun _ _ => false) 0
      = login ⟨[⟨"u", "b@y", "B", "hh", ""⟩], [], []⟩ ⟨"b@y", "pw"⟩ (fun _ _ => false) 0 :=
  login_failures_indistinguishable ⟨[], [], []⟩ ⟨[⟨"u", "b@y", "B", "hh", ""⟩], [], []⟩
    ⟨"a@x", "pw"⟩ ⟨"b@y", "pw"⟩ (fun _ _ => false) (fun _ _ => false) 0 0
    (Or.inl rfl) (Or.inr ⟨⟨"u", "b@y", "B", "hh", ""⟩, rfl, rfl⟩)

/-- Claim C7: a trip of user A is invisible to any other user B: it
never appears in B's trip list, B's generate-itinerary call on its id
answers 404 "Trip not found" whatever the external generator would do,
and B's itinerary fetch on its id answers 404 "Itinerary not found"
(given that, as the service maintains, every trip and itinerary stored
under this trip id belongs to A). -/
theorem cross_user_trip_isolation
    (db : DB) (a b : UserRec) (tr : TripRec) (tid : String)
    (llm : Except String (List Char)) (nid iso : String)
    (hmem : tr ∈ db.trips) (hid : tr.id = tid) (hown : tr.user_id = a.id) (hb : b.id ≠ a.id)
    (hA : ∀ t ∈ db.trips, t.id = tid → t.user_id = a.id)
    (hI : ∀ i ∈ db.itineraries, i.trip_id = tid → i.user_id = a.id) :
    tr ∉ get_trips db b
    ∧ (generate_itinerary db b tid llm nid iso).1 = .error ⟨404, "Trip not found"⟩
    ∧ get_itinerary db b tid = .error ⟨404, "Itinerary not found"⟩ := by
  refine ⟨?_, ?_, ?_⟩
  · intro hin
    have h1 : tr ∈ db.trips.filter (fun t => t.user_id == b.id) :=
      List.take_subset _ _ hin
    have h3 : tr.user_id = b.id := by simpa using (List.mem_filter.mp h1).2
    exact hb (h3.symm.trans hown)
  · have hfind : db.trips.find? (fun t => t.id == tid && t.user_id == b.id) = none := by
      rw [List.find?_eq_none]
      intro t ht hc
      simp only [Bool.and_eq_true, beq_iff_eq] at hc
      exact hb (hc.2.symm.trans (hA t ht hc.1))
    simp [generate_itinerary, hfind]
  · have hfind : db.itineraries.find?
        (fun i => i.trip_id == tid && i.user_id == b.id) = none := by
      rw [List.find?_eq_none]
      intro i hi hc
      simp only [Bool.and_eq_true, beq_iff_eq] at hc
      exact hb (hc.2.symm.trans (hI i hi hc.1))
    simp [get_itinerary, hfind]

theorem cross_user_trip_isolation_witness :
    (⟨"t1", "a", "P", "", "", "", "", "", 3, "solo", "mix", "moderate", "balanced", ""⟩ : TripRec)
      ∉ get_trips
        ⟨[⟨"a", "a@x", "A", "h", ""⟩, ⟨"b", "b@x", "B", "h", ""⟩],
         [⟨"t1", "a", "P", "", "", "", "", "", 3, "solo", "mix", "moderate", "balanced", ""⟩],
         [⟨"i1", "t1", "a", Json.obj [], ""⟩]⟩
        ⟨"b", "b@x", "B", "h", ""⟩
    ∧ (generate_itinerary
        ⟨[⟨"a", "a@x", "A", "h", ""⟩, ⟨"b", "b@x", "B", "h", ""⟩],
         [⟨"t1", "a", "P", "", "", "", "", "", 3, "solo", "mix", "moderate", "balanced", ""⟩],
         [⟨"i1", "t1", "a", Json.obj [], ""⟩]⟩
        ⟨"b", "b@x", "B", "h", ""⟩ "t1" (.ok ['n', 'u', 'l', 'l']) "i2" "now").1
      = .error ⟨404, "Trip not found"⟩
    ∧ get_itinerary
        ⟨[⟨"a", "a@x", "A", "h", ""⟩, ⟨"b", "b@x", "B", "h", ""⟩],
         [⟨"t1", "a", "P", "", "", "", "", "", 3, "solo", "mix", "moderate", "balanced", ""⟩],
         [⟨"i1", "t1", "a", Json.obj [], ""⟩]⟩
        ⟨"b", "b@x", "B", "h", ""⟩ "t1"
      = .error ⟨404, "Itinerary not found"⟩ :=
  cross_user_trip_isolation _ ⟨"a", "a@x", "A", "h", ""⟩ _ _ _ _ _ _
    (by simp) rfl rfl (by decide)
    (by intro t ht hid; simp at ht; rw [ht]) (by intro i hi hid; simp at hi; rw [hi])

/-- Claim C8: starting from a users collection in which no two records
share an email, `register` — the only operation that inserts users —
preserves that uniqueness on both of its branches, and the other
store-writing operations leave the users collection untouched
(the remaining operations do not write at all). -/
theorem register_preserves_email_uniqueness
    (db : DB) (h : emailsNodup db)
    (i : UserRegister) (nid ph : String) (t : Int) (iso : String)
    (body : TripCriteriaCreate) (u : UserRec) (nid2 iso2 : String)
    (tid : String) (llm : Except String (List Char)) (nid3 iso3 : String) :
    emailsNodup (register db i nid ph t iso).2
    ∧ (create_trip db body u nid2 iso2).2.users = db.users
    ∧ (generate_itinerary db u tid llm nid3 iso3).2.users = db.users := by
  refine ⟨?_, ?_, ?_⟩
  · cases hfind : db.users.find? (fun x => x.email == i.email) with
    | some w => simpa [register, hfind] using h
    | none =>
      have hnotin : i.email ∉ db.users.map (fun u => u.email) := by
        rw [List.find?_eq_none] at hfind
        intro hmem
        obtain ⟨u, hu, he⟩ := List.mem_map.mp hmem
        exact hfind u hu (by simp [he])
      simp only [register, hfind]
      unfold emailsNodup
      simp only [List.map_append, List.map_cons, List.map_nil]
      rw [List.nodup_append]
      exact ⟨h, List.nodup_singleton _,
        fun x hx hx' => hnotin ((List.mem_singleton.mp hx') ▸ hx)⟩
  · unfold create_trip
    by_cases hv : validTripCreate body <;> simp [hv]
  · cases hf : db.trips.find? (fun t => t.id == tid && t.user_id == u.id) with
    | none => simp [generate_itinerary, hf]
    | some tr =>
      cases llm with
      | error m => simp [generate_itinerary, hf]
      | ok r =>
        cases hp : parse_llm_response r with
        | none => simp [generate_itinerary, hf, hp]
        | some d => cases d <;> simp [generate_itinerary, hf, hp]

theorem register_preserves_email_uniqueness_witness :
    emailsNodup (register ⟨[⟨"u1", "a@x", "A", "h", ""⟩], [], []⟩
      ⟨"b@y", "B", "pw"⟩ "u2" "h2" 0 "").2
    ∧ (create_trip ⟨[⟨"u1", "a@x", "A", "h", ""⟩], [], []⟩
        ⟨"P", "", "", "", "", "", 3, "solo", "mix", "moderate", "balanced"⟩
        ⟨"u1", "a@x", "A", "h", ""⟩ "t1" "now").2.users
      = [⟨"u1", "a@x", "A", "h", ""⟩]
    ∧ (generate_itinerary ⟨[⟨"u1", "a@x", "A", "h", ""⟩], [], []⟩
        ⟨"u1", "a@x", "A", "h", ""⟩ "t9" (.error "boom") "i1" "now").2.users
      = [⟨"u1", "a@x", "A", "h", ""⟩] :=
  register_preserves_email_uniqueness ⟨[⟨"u1", "a@x", "A", "h", ""⟩], [], []⟩
    (by simp [emailsNodup]) ⟨"b@y", "B", "pw"⟩ "u2" "h2" 0 ""
    ⟨"P", "", "", "", "", "", 3, "solo", "mix", "moderate", "balanced"⟩
    ⟨"u1", "a@x", "A", "h", ""⟩ "t1" "now" "t9" (.error "boom") "i1" "now"

/-- Claim C9 counterexample: a create-trip body whose `number_of_days`
is 0 — an integer that is not positive — passes validation and creates
the trip instead of being rejected with 422, because the source
annotates the field as plain `int`. -/
theorem create_trip_nonpositive_days_accepted :
    (create_trip ⟨[], [], []⟩
      ⟨"Paris", "t0", "t1", "H", "c0", "c1", 0, "couple", "cultural", "moderate", "balanced"⟩
      ⟨"u9", "e@x", "N", "h", ""⟩ "trip9" "now").1
      = .ok ⟨"trip9", "u9", "Paris", "t0", "t1", "H", "c0", "c1", 0,
             "couple", "cultural", "moderate", "balanced", "now"⟩ := rfl

/-- Claim C9 as amended: a create-trip request is rejected with 422
exactly when one of the four enumerated fields lies outside its literal
set (`number_of_days` only has to be an integer; no positivity is
enforced), and an accepted request creates a record whose `user_id` is
the caller's id regardless of the request body. -/
theorem create_trip_validation_amended
    (db : DB) (b : TripCriteriaCreate) (u : UserRec) (nid iso : String) :
    ((create_trip db b u nid iso).1 = .error ⟨422, validationErrorDetail⟩
       ↔ validTripCreate b = false)
    ∧ (∀ tr, (create_trip db b u nid iso).1 = .ok tr → tr.user_id = u.id) := by
  constructor
  · by_cases hv : validTripCreate b <;> simp [create_trip, hv]
  · intro tr htr
    by_cases hv : validTripCreate b <;> simp [create_trip, hv] at htr
    rw [← htr]

theorem create_trip_validation_amended_witness :
    ((create_trip ⟨[], [], []⟩
        ⟨"P", "", "", "", "", "", 3, "not_a_type", "cultural", "moderate", "balanced"⟩
        ⟨"u", "e", "N", "h", ""⟩ "t" "n").1 = .error ⟨422, validationErrorDetail⟩)
    ∧ (⟨"t2", "u", "P", "", "", "", "", "", 3, "couple", "cultural", "moderate", "balanced", "n"⟩
        : TripRec).user_id = "u" :=
  ⟨(create_trip_validation_amended ⟨[], [], []⟩
      ⟨"P", "", "", "", "", "", 3, "not_a_type", "cultural", "moderate", "balanced"⟩
      ⟨"u", "e", "N", "h", ""⟩ "t" "n").1.mpr (by rfl),
   (create_trip_validation_amended ⟨[], [], []⟩
      ⟨"P", "", "", "", "", "", 3, "couple", "cultural", "moderate", "balanced"⟩
      ⟨"u", "e", "N", "h", ""⟩ "t2" "n").2
      ⟨"t2", "u", "P", "", "", "", "", "", 3, "couple", "cultural", "moderate", "balanced", "n"⟩
      (by rfl)⟩

/-- Claim C10: the trip list returned to a caller holds at most 100
records; it is an initial segment of the caller's matching trips, and
whenever more than 100 trips match, exactly 100 are returned, so the
records beyond the first 100 are omitted. -/
theorem get_trips_truncates_at_100 (db : DB) (u : UserRec) :
    (get_trips db u).length ≤ 100
    ∧ (∃ rest, get_trips db u ++ rest = db.trips.filter (fun t => t.user_id == u.id))
    ∧ ((db.trips.filter (fun t => t.user_id == u.id)).length > 100 →
        (get_trips db u).length = 100) := by
  refine ⟨?_, ⟨_, List.take_append_drop _ _⟩, ?_⟩
  · unfold get_trips
    rw [List.length_take]
    omega
  · intro hgt
    unfold get_trips
    rw [List.length_take]
    omega

theorem get_trips_truncates_at_100_witness :
    (get_trips
      ⟨[], List.replicate 101
        ⟨"t", "u", "P", "", "", "", "", "", 1, "solo", "mix", "moderate", "balanced", ""⟩, []⟩
      ⟨"u", "e", "N", "h", ""⟩).length = 100 :=
  (get_trips_truncates_at_100
    ⟨[], List.replicate 101
      ⟨"t", "u", "P", "", "", "", "", "", 1, "solo", "mix", "moderate", "balanced", ""⟩, []⟩
    ⟨"u", "e", "N", "h", ""⟩).2.2 (by decide)

theorem parse_llm_response_code_fence_invariant_witness :
    parse_llm_response (wrapFenced true ['n', 'u', 'l', 'l']) = some Json.null
    ∧ parse_llm_response (wrapFenced false ['n', 'u', 'l', 'l']) = some Json.null
    ∧ parse_llm_response ['n', 'u', 'l', 'l'] = some Json.null :=
  parse_llm_response_code_fence_invariant ['n', 'u', 'l', 'l'] Json.null (by rfl)
